import Mathlib

/-!
Shallow embedding of the natation-tracker API (`src/app.js`, Express + MySQL):
CORS origin policy, edit-token auth gate, browser-navigation blocker,
type/distance validation, and the CRUD handlers over the `sessions` table,
with the router mounted at both `/` and `/api`.

The database table is modelled as a `List Session`; each handler is a pure
function from the table (and the request data) to a response and the new
table.  JavaScript host-language primitives used by the code
(`String.prototype.toLowerCase/trim/slice/startsWith/includes/split`,
`Number()` on strings, truthiness) are modelled explicitly on character
lists so that everything evaluates inside the kernel.
-/

/-! ### JavaScript string primitives (host behavior, modelled on char lists) -/

/-- Model of JS `String.prototype.toLowerCase` (per-character lowering). -/
def jsToLower (s : String) : String :=
  String.mk (s.data.map Char.toLower)

/-- Whitespace recognised by JS `trim`. -/
def isJsSpace (c : Char) : Bool :=
  c == ' ' || c == '\t' || c == '\n' || c == '\r'

/-- Model of JS `String.prototype.trim` on a character list. -/
def jsTrimL (cs : List Char) : List Char :=
  ((cs.dropWhile isJsSpace).reverse.dropWhile isJsSpace).reverse

/-- Model of JS `String.prototype.trim`. -/
def jsTrim (s : String) : String :=
  String.mk (jsTrimL s.data)

/-- `hasPrefixL p l` : `p` is a prefix of `l` (char lists). -/
def hasPrefixL : List Char → List Char → Bool
  | [], _ => true
  | _ :: _, [] => false
  | a :: p, b :: l => a == b && hasPrefixL p l

/-- `hasSubstrL p l` : `p` occurs as a contiguous substring of `l`. -/
def hasSubstrL (p : List Char) : List Char → Bool
  | [] => hasPrefixL p []
  | c :: rest => hasPrefixL p (c :: rest) || hasSubstrL p rest

/-- Model of JS `String.prototype.includes`. -/
def strContains (s pat : String) : Bool :=
  hasSubstrL pat.data s.data

/-- Model of JS `String.prototype.startsWith`. -/
def jsStartsWith (s pre : String) : Bool :=
  hasPrefixL pre.data s.data

/-- Model of JS `String.prototype.slice(n)` (drop the first `n` characters). -/
def sliceFrom (s : String) (n : Nat) : String :=
  String.mk (s.data.drop n)

/-- Split a character list on a separator character (model of JS `split`). -/
def splitCharAux (sep : Char) (cur : List Char) : List Char → List (List Char)
  | [] => [cur.reverse]
  | c :: cs =>
    if c == sep then cur.reverse :: splitCharAux sep [] cs
    else splitCharAux sep (c :: cur) cs

/-! ### JavaScript numbers -/

/-- A JS number as far as this program observes it: a finite rational,
one of the two infinities, or `NaN`. -/
inductive JsNum where
  | fin (q : ℚ)
  | posInf
  | negInf
  | nan
deriving DecidableEq

/-- Model of JS `Number.isFinite`. -/
def jsNumIsFinite : JsNum → Bool
  | .fin _ => true
  | _ => false

/-- Model of the JS comparison `n <= 0` (`NaN` compares false). -/
def jsLeZero : JsNum → Bool
  | .fin q => decide (q ≤ 0)
  | .posInf => false
  | .negInf => true
  | .nan => false

/-- The rational carried by a finite JS number (junk `0` otherwise; only
used under a finiteness guard, as in the code). -/
def JsNum.toQ : JsNum → ℚ
  | .fin q => q
  | _ => 0

/-- Numeric value of a list of decimal digits. -/
def digitsVal (cs : List Char) : Nat :=
  cs.foldl (fun n c => n * 10 + (c.toNat - 48)) 0

/-- Modelled from the host language: JS `Number()` applied to a string
(decimal forms, signs, `Infinity`, empty string → 0; hex/exponent forms
are not used by this repository and map to `NaN` here). -/
def parseJsNum (s : String) : JsNum :=
  let t := jsTrimL s.data
  if t = [] then .fin 0
  else
    let signed : Bool × List Char :=
      match t with
      | '+' :: r => (false, r)
      | '-' :: r => (true, r)
      | r => (false, r)
    let neg := signed.1
    let rest := signed.2
    if rest = "Infinity".data then (if neg then .negInf else .posInf)
    else
      let core : Option ℚ :=
        match splitCharAux '.' [] rest with
        | [ip] =>
          if ip ≠ [] && ip.all Char.isDigit then some ((digitsVal ip : ℚ)) else none
        | [ip, fp] =>
          if (ip ≠ [] || fp ≠ []) && ip.all Char.isDigit && fp.all Char.isDigit then
            some ((digitsVal ip : ℚ) + (digitsVal fp : ℚ) / ((10 : ℚ) ^ fp.length))
          else none
        | _ => none
      match core with
      | some q => .fin (if neg then -q else q)
      | none => .nan

/-- A JSON/JS value in the positions this program inspects: a string, a
number, or `null`.  Absence (`undefined`) is modelled by `Option`. -/
inductive JsVal where
  | vStr (s : String)
  | vNum (n : JsNum)
  | vNull
deriving DecidableEq

/-- Model of JS `Number()` on the values that can reach it here. -/
def toNumber : JsVal → JsNum
  | .vStr s => parseJsNum s
  | .vNum n => n
  | .vNull => .fin 0

/-! ### Data model: the `sessions` table -/

/-- One row of the `sessions` table. -/
structure Session where
  id : String
  date : String
  distance : ℚ
  type : String
deriving DecidableEq

/-- Insert a session into a date-sorted list (stable). -/
def insertByDate (s : Session) : List Session → List Session
  | [] => [s]
  | t :: rest =>
    if s.date ≤ t.date then s :: t :: rest else t :: insertByDate s rest

/-- `ORDER BY date ASC` (stable sort by the date string). -/
def sortByDate : List Session → List Session
  | [] => []
  | s :: rest => insertByDate s (sortByDate rest)

/-! ### CORS policy (`WHITELIST`, `corsOptions.origin`) -/

/-- `WHITELIST`: the `CORS_ORIGIN` env string split on `,`, trimmed,
with falsy (empty) entries dropped. -/
def mkWhitelist (env : String) : List String :=
  (((splitCharAux ',' [] env.data).map (fun cs => String.mk (jsTrimL cs))).filter
    (fun s => s ≠ ""))

/-- `corsOptions.origin`: `true` means the callback allowed the origin
(`cb(null,true)`), `false` means it denied it (`cb(null,false)`).
`origin = none` models an absent `Origin` header; an empty-string origin
is falsy in JS and also allowed. -/
def corsOriginAllowed (whitelist : List String) (origin : Option String) : Bool :=
  match origin with
  | none => true
  | some o =>
    if o = "" then true
    else whitelist.isEmpty || whitelist.contains o

/-! ### Auth gate (`requireEditAuth`) -/

/-- The two headers the auth gate reads; `none` models an absent header. -/
structure AuthHeaders where
  xApiKey : Option String
  authorization : Option String
deriving DecidableEq

/-- Token extraction of `requireEditAuth`:
`header = authorization || ""`; `bearer = header.startsWith("Bearer ") ?
header.slice(7) : null`; `token = x-api-key || bearer` (JS `||`: an empty
or absent `X-API-Key` falls through to the bearer token). -/
def extractToken (h : AuthHeaders) : Option String :=
  let header := h.authorization.getD ""
  let bearer : Option String :=
    if jsStartsWith header "Bearer " then some (sliceFrom header 7) else none
  match h.xApiKey with
  | some s => if s = "" then bearer else some s
  | none => bearer

/-- `requireEditAuth` as a predicate: `true` = `next()` (request proceeds),
`false` = `401 {error:"unauthorized"}`.  `editToken` is
`process.env.EDIT_TOKEN` (`none` = unset). -/
def requireEditAuth (h : AuthHeaders) (editToken : Option String) : Bool :=
  let expected := editToken.getD ""
  match extractToken h with
  | some t => t ≠ "" && expected ≠ "" && t == expected
  | none => false

/-! ### Navigation blocker (`blockBrowserNav`) -/

/-- The headers the navigation blocker reads; `none` = absent. -/
structure NavHeaders where
  secFetchDest : Option String
  secFetchMode : Option String
  accept : Option String
deriving DecidableEq

/-- The `isDocumentNav` condition of `blockBrowserNav`. -/
def isDocumentNav (h : NavHeaders) : Bool :=
  let dest := jsToLower (h.secFetchDest.getD "")
  let mode := jsToLower (h.secFetchMode.getD "")
  let accept := jsToLower (h.accept.getD "")
  mode == "navigate" || dest == "document" ||
    (strContains accept "text/html" && !strContains accept "application/json")

/-- `blockBrowserNav` decision: `true` = respond `204` with empty body and
do not call the route handler; `false` = `next()`. -/
def blockBrowserNav (method path : String) (h : NavHeaders) : Bool :=
  method == "GET" && path != "/health" && isDocumentNav h

/-! ### Type helpers (`ALLOWED_TYPES`, `normalizeType`, `isValidType`) -/

/-- `ALLOWED_TYPES = new Set(["swim", "run"])`. -/
def ALLOWED_TYPES : List String := ["swim", "run"]

/-- `normalizeType`: falsy input (absent or empty) → `"swim"`; otherwise
`String(input).toLowerCase().trim()`. -/
def normalizeType (input : Option String) : String :=
  match input with
  | none => "swim"
  | some s => if s = "" then "swim" else jsTrim (jsToLower s)

/-- `isValidType`: membership in `ALLOWED_TYPES`. -/
def isValidType (t : String) : Bool :=
  ALLOWED_TYPES.contains t

/-! ### Responses -/

/-- The distinguishable JSON responses of the app. -/
inductive Resp where
  | sessionsList (rows : List Session)
  | created (s : Session)
  | updated (id : String) (date : Option String) (distance : Option JsVal)
      (type : Option String)
  | noContent
  | badRequest (msg : String)
  | unauthorized
  | notFound
  | healthOk
  | authOk
  | pingUp
  | expressNotFound
deriving DecidableEq

/-- HTTP status code of each response. -/
def Resp.status : Resp → Nat
  | .sessionsList _ => 200
  | .created _ => 201
  | .updated _ _ _ _ => 200
  | .noContent => 204
  | .badRequest _ => 400
  | .unauthorized => 401
  | .notFound => 404
  | .healthOk => 200
  | .authOk => 200
  | .pingUp => 200
  | .expressNotFound => 404

/-- The JSON body fields this app destructures (`{distance, date, id, type}`);
`none` models an absent field (`undefined`). -/
structure Body where
  id : Option String
  date : Option String
  distance : Option JsVal
  type : Option String
deriving DecidableEq

/-! ### Route handlers -/

/-- The code's distance test, `!(!Number.isFinite(n) || n <= 0)`. -/
def distanceOk (n : JsNum) : Bool :=
  jsNumIsFinite n && !jsLeZero n

/-- `GET /sessions` (optional `?type=` filter).  `qType = none` models an
absent query parameter. -/
def getSessions (st : List Session) (qType : Option String) : Resp :=
  let t : String :=
    match qType with
    | none => ""
    | some q => if q = "" then "" else normalizeType (some q)
  if t ≠ "" && !isValidType t then .badRequest "type invalide (swim|run)"
  else if t ≠ "" then
    .sessionsList (sortByDate (st.filter (fun s => s.type == t)))
  else .sessionsList (sortByDate st)

/-- `POST /sessions` (gate, then validation in code order, then INSERT).
`g` is the fresh `uuidv4()` value used when the body carries no id. -/
def postSessions (st : List Session) (h : AuthHeaders) (editToken : Option String)
    (g : String) (b : Body) : Resp × List Session :=
  if !requireEditAuth h editToken then (.unauthorized, st)
  else
    let t := normalizeType b.type
    if b.date = none ∨ b.date = some "" then (.badRequest "date requise", st)
    else if b.distance = none ∨ b.distance = some .vNull ∨
        b.distance = some (.vStr "") then (.badRequest "distance requise", st)
    else
      let dn := toNumber ((b.distance).getD .vNull)
      if !distanceOk dn then (.badRequest "distance invalide", st)
      else if !isValidType t then (.badRequest "type invalide (swim|run)", st)
      else
        let newId :=
          match b.id with
          | some i => if i = "" then g else i
          | none => g
        let row : Session := ⟨newId, (b.date).getD "", dn.toQ, t⟩
        (.created row, st ++ [row])

/-- `PUT /sessions/:id`: presence check, per-field validation in code
order, partial UPDATE touching only the supplied (truthy-date) fields,
404 when no row matches, else echo of the submitted fields. -/
def putSessions (st : List Session) (h : AuthHeaders) (editToken : Option String)
    (id : String) (b : Body) : Resp × List Session :=
  if !requireEditAuth h editToken then (.unauthorized, st)
  else if b.distance = none ∧ (b.date = none ∨ b.date = some "") ∧ b.type = none then
    (.badRequest "aucune donnée à mettre à jour", st)
  else
    let newDate : Option String :=
      match b.date with
      | some d => if d = "" then none else some d
      | none => none
    let distRes : Option (Option ℚ) :=
      match b.distance with
      | some v =>
        let dn := toNumber v
        if !distanceOk dn then none else some (some dn.toQ)
      | none => some none
    match distRes with
    | none => (.badRequest "distance invalide", st)
    | some newDist =>
      let typeRes : Option (Option String) :=
        match b.type with
        | some ty =>
          let t := normalizeType (some ty)
          if !isValidType t then none else some (some t)
        | none => some none
      match typeRes with
      | none => (.badRequest "type invalide (swim|run)", st)
      | some newType =>
        let matched := (st.filter (fun s => s.id == id)).length
        if matched = 0 then (.notFound, st)
        else
          let upd : Session → Session := fun s =>
            if s.id == id then
              { s with
                date := newDate.getD s.date,
                distance := newDist.getD s.distance,
                type := newType.getD s.type }
            else s
          (.updated id b.date b.distance b.type, st.map upd)

/-- `DELETE /sessions/:id`. -/
def deleteSession (st : List Session) (h : AuthHeaders) (editToken : Option String)
    (id : String) : Resp × List Session :=
  if !requireEditAuth h editToken then (.unauthorized, st)
  else
    let affected := (st.filter (fun s => s.id == id)).length
    if affected = 0 then (.notFound, st)
    else (.noContent, st.filter (fun s => !(s.id == id)))

/-! ### Router and app mounting -/

/-- A request as the router observes it. -/
structure Request where
  method : String
  path : String
  auth : AuthHeaders
  nav : NavHeaders
  qType : Option String
  body : Body
deriving DecidableEq

/-- Path segments: split the path on `/` and drop the part before the
leading slash (so `"/sessions/abc"` ↦ `["sessions", "abc"]`). -/
def pathSegments (p : String) : List String :=
  ((splitCharAux '/' [] p.data).map String.mk).drop 1

/-- First segment (or `""`). -/
def seg1 (segs : List String) : String := segs.getD 0 ""

/-- Second segment (or `""`). -/
def seg2 (segs : List String) : String := segs.getD 1 ""

/-- Dispatch of the `api` router's routes once `blockBrowserNav` let the
request through.  `none` = no route matched (`next()` out of the router).
`g` is the `uuidv4()` value for this request. -/
def routeDispatch (editToken : Option String) (st : List Session) (req : Request)
    (g : String) : Option (Resp × List Session) :=
  let segs := pathSegments req.path
  if req.method = "GET" ∧ segs = ["health"] then some (.healthOk, st)
  else if req.method = "GET" ∧ segs = ["auth", "check"] then
    some ((if requireEditAuth req.auth editToken then .authOk else .unauthorized), st)
  else if req.method = "GET" ∧ segs = ["sessions"] then
    some (getSessions st req.qType, st)
  else if req.method = "POST" ∧ segs = ["sessions"] then
    some (postSessions st req.auth editToken g req.body)
  else if req.method = "PUT" ∧ segs.length = 2 ∧ seg1 segs = "sessions" ∧
      seg2 segs ≠ "" then
    some (putSessions st req.auth editToken (seg2 segs) req.body)
  else if req.method = "DELETE" ∧ segs.length = 2 ∧ seg1 segs = "sessions" ∧
      seg2 segs ≠ "" then
    some (deleteSession st req.auth editToken (seg2 segs))
  else none

/-- One pass through the `api` router (`api.use(blockBrowserNav)` then the
routes).  `none` = the router fell through. -/
def routerHandle (editToken : Option String) (st : List Session) (req : Request)
    (g : String) : Option (Resp × List Session) :=
  if blockBrowserNav req.method req.path req.nav then some (.noContent, st)
  else routeDispatch editToken st req g

/-- Express mount-prefix stripping for `app.use("/api", api)`:
`/api` ↦ `/`, `/api/x` ↦ `/x`, anything else does not match the mount. -/
def stripApi (p : String) : Option String :=
  match p.data with
  | '/' :: 'a' :: 'p' :: 'i' :: [] => some "/"
  | '/' :: 'a' :: 'p' :: 'i' :: '/' :: rest => some (String.mk ('/' :: rest))
  | _ => none

/-- What runs after both router mounts declined: `app.get("/", ...)` and
the framework's default 404. -/
def appFallback (st : List Session) (req : Request) : Resp × List Session :=
  if req.method = "GET" ∧ req.path = "/" then (.pingUp, st)
  else (.expressNotFound, st)

/-- The whole app: `app.use("/", api)` then `app.use("/api", api)` (with
the mount prefix stripped from the path) then the fallback layer. -/
def handleApp (editToken : Option String) (st : List Session) (req : Request)
    (g : String) : Resp × List Session :=
  match routerHandle editToken st req g with
  | some r => r
  | none =>
    match stripApi req.path with
    | some p2 =>
      match routerHandle editToken st { req with path := p2 } g with
      | some r => r
      | none => appFallback st req
    | none => appFallback st req

/-! ### Helper lemmas -/

theorem hasPrefixL_append (p r : List Char) : hasPrefixL p (p ++ r) = true := by
  induction p with
  | nil => rfl
  | cons a p ih => simp [hasPrefixL, ih]

theorem mem_insertByDate (a s : Session) (l : List Session) :
    a ∈ insertByDate s l ↔ a = s ∨ a ∈ l := by
  induction l with
  | nil => simp [insertByDate]
  | cons t rest ih =>
    by_cases h : s.date ≤ t.date
    · simp [insertByDate, h]
    · simp [insertByDate, h, ih]
      tauto

theorem mem_sortByDate (a : Session) (l : List Session) :
    a ∈ sortByDate l ↔ a ∈ l := by
  induction l with
  | nil => simp [sortByDate]
  | cons s rest ih => simp [sortByDate, mem_insertByDate, ih]

theorem extractToken_bearer (t : String) (x : Option String) (hx : x = none ∨ x = some "") :
    extractToken ⟨x, some ("Bearer " ++ t)⟩ = some t := by
  have hpre : jsStartsWith ("Bearer " ++ t) "Bearer " = true := by
    show hasPrefixL "Bearer ".data ("Bearer " ++ t).data = true
    have : ("Bearer " ++ t).data = "Bearer ".data ++ t.data := rfl
    rw [this]
    exact hasPrefixL_append _ _
  have hslice : sliceFrom ("Bearer " ++ t) 7 = t := by
    show String.mk (("Bearer " ++ t).data.drop 7) = t
    have h1 : ("Bearer " ++ t).data = "Bearer ".data ++ t.data := rfl
    rw [h1]
    have h2 : ("Bearer ".data).length = 7 := rfl
    rw [← h2, List.drop_left]
  rcases hx with hx | hx <;> subst hx <;>
    simp [extractToken, hpre, hslice]

/-! ### Claim theorems -/

/-- C1: `requireEditAuth` lets a request through iff the configured secret
is non-empty, a candidate token was extracted (from `X-API-Key` or the
`Bearer `-prefixed `Authorization` header), and the token equals that
secret exactly; in every other combination it answers 401 and the
protected handlers are never run, so the table is unchanged. -/
theorem requireEditAuth_gate_characterization :
    ∀ (h : AuthHeaders) (e : Option String),
      (requireEditAuth h e = true ↔
        (e.getD "" ≠ "" ∧ ∃ t, extractToken h = some t ∧ t = e.getD "")) ∧
      (requireEditAuth h e = false →
        Resp.unauthorized.status = 401 ∧
        ∀ (st : List Session) (g i : String) (b : Body),
          postSessions st h e g b = (.unauthorized, st) ∧
          putSessions st h e i b = (.unauthorized, st) ∧
          deleteSession st h e i = (.unauthorized, st)) := by
  intro h e
  constructor
  · unfold requireEditAuth
    cases hx : extractToken h with
    | none => simp
    | some t =>
      simp only [Option.some.injEq, Bool.and_eq_true, beq_iff_eq, ne_eq,
        decide_eq_true_eq]
      constructor
      · rintro ⟨⟨_, he⟩, heq⟩
        exact ⟨he, t, rfl, heq⟩
      · rintro ⟨he, t', rfl, rfl⟩
        exact ⟨⟨he, he⟩, rfl⟩
  · intro hf
    refine ⟨rfl, fun st g i b => ?_⟩
    refine ⟨?_, ?_, ?_⟩ <;> simp [postSessions, putSessions, deleteSession, hf]

/-- C1 witness: with no headers and no configured secret the gate rejects
and no handler mutates the table. -/
theorem requireEditAuth_gate_characterization_witness :
    postSessions [] ⟨none, none⟩ none "g" ⟨none, none, none, none⟩ =
      (.unauthorized, []) :=
  (((requireEditAuth_gate_characterization ⟨none, none⟩ none).2 (by decide)).2
    [] "g" "x" ⟨none, none, none, none⟩).1

/-- C5: `normalizeType` is pure; absent or empty input yields `"swim"`,
any non-empty input is returned lowercased and trimmed verbatim, with no
allow-list check (the result need not be in `{swim, run}`). -/
theorem normalizeType_spec :
    normalizeType none = "swim" ∧
    normalizeType (some "") = "swim" ∧
    (∀ s : String, s ≠ "" → normalizeType (some s) = jsTrim (jsToLower s)) ∧
    isValidType (normalizeType (some " FOO ")) = false := by
  refine ⟨rfl, rfl, ?_, by decide⟩
  intro s hs
  simp [normalizeType, hs]

/-- C5 witness. -/
theorem normalizeType_spec_witness :
    normalizeType (some "Run ") = jsTrim (jsToLower "Run ") :=
  normalizeType_spec.2.2.1 "Run " (by decide)

/-- C6 counterexample: the code allows a present-but-empty `Origin`
header even when the allow-list is non-empty and does not contain `""`
(JS truthiness: `if (!origin) return cb(null, true)`), so "a request with
an Origin not in a non-empty allow-list is disallowed" fails as stated. -/
theorem cors_origin_counterexample :
    ¬ (∀ (wl : List String) (o : String), wl ≠ [] → o ∉ wl →
        corsOriginAllowed wl (some o) = false) := by
  intro hcl
  have h := hcl ["https://natrack.prjski.com"] "" (by decide) (by decide)
  simp [corsOriginAllowed] at h

/-- C6 amended: no `Origin` is always allowed; a present-but-**empty**
`Origin` value is treated like an absent one and allowed; an origin is
allowed when the allow-list is empty or contains it exactly; a present
non-empty origin not in a non-empty allow-list is disallowed. -/
theorem cors_origin_decision :
    ∀ (wl : List String) (o : String),
      corsOriginAllowed wl none = true ∧
      corsOriginAllowed wl (some "") = true ∧
      (wl = [] → corsOriginAllowed wl (some o) = true) ∧
      (o ∈ wl → corsOriginAllowed wl (some o) = true) ∧
      (wl ≠ [] → o ∉ wl → o ≠ "" → corsOriginAllowed wl (some o) = false) := by
  intro wl o
  refine ⟨rfl, rfl, ?_, ?_, ?_⟩
  · rintro rfl
    by_cases ho : o = "" <;> simp [corsOriginAllowed, ho]
  · intro hmem
    by_cases ho : o = ""
    · subst ho
      rfl
    · simp [corsOriginAllowed, ho, hmem]
  · intro hne hmem ho
    simp [corsOriginAllowed, ho, hmem, hne]

/-- C6 witness. -/
theorem cors_origin_decision_witness :
    corsOriginAllowed ["https://a"] (some "https://b") = false ∧
    corsOriginAllowed [] (some "https://b") = true ∧
    corsOriginAllowed ["https://a"] (some "https://a") = true :=
  ⟨(cors_origin_decision ["https://a"] "https://b").2.2.2.2 (by decide) (by decide)
      (by decide),
   (cors_origin_decision [] "https://b").2.2.1 rfl,
   (cors_origin_decision ["https://a"] "https://a").2.2.2.1 (by decide)⟩

/-- C9: a present-but-empty `X-API-Key` header falls through to the
`Bearer` token (and by itself never causes rejection): with an empty
`X-API-Key` and `Authorization: Bearer t` the compared token is `t`;
only a non-empty `X-API-Key` takes precedence over the bearer token. -/
theorem empty_apikey_no_shadow :
    (∀ t : String, extractToken ⟨some "", some ("Bearer " ++ t)⟩ = some t) ∧
    (∀ a : Option String, extractToken ⟨some "", a⟩ = extractToken ⟨none, a⟩) ∧
    (∀ s : String, s ≠ "" → ∀ a : Option String, extractToken ⟨some s, a⟩ = some s) ∧
    (∀ t : String, t ≠ "" →
      requireEditAuth ⟨some "", some ("Bearer " ++ t)⟩ (some t) = true) := by
  refine ⟨?_, ?_, ?_, ?_⟩
  · intro t
    exact extractToken_bearer t (some "") (Or.inr rfl)
  · intro a
    simp [extractToken]
  · intro s hs a
    simp [extractToken, hs]
  · intro t ht
    have h1 := extractToken_bearer t (some "") (Or.inr rfl)
    simp [requireEditAuth, h1, ht]

/-- C9 witness. -/
theorem empty_apikey_no_shadow_witness :
    extractToken ⟨some "k", none⟩ = some "k" ∧
    requireEditAuth ⟨some "", some ("Bearer " ++ "tok")⟩ (some "tok") = true :=
  ⟨empty_apikey_no_shadow.2.2.1 "k" (by decide) none,
   empty_apikey_no_shadow.2.2.2 "tok" (by decide)⟩

/-- C3: the distance test used by `POST /sessions` and `PUT /sessions/:id`
(`!Number.isFinite(n) || n <= 0` rejected) accepts exactly when numeric
conversion of the input yields a finite number strictly greater than zero
(zero, negatives, `NaN`, the infinities and non-numeric strings all fail),
and an invalid distance makes `POST /sessions` answer 400. -/
theorem distance_validation_spec :
    ∀ v : JsVal,
      (distanceOk (toNumber v) = true ↔ ∃ q : ℚ, toNumber v = .fin q ∧ 0 < q) ∧
      (distanceOk (toNumber (.vStr "abc")) = false ∧
       distanceOk (toNumber (.vStr "Infinity")) = false ∧
       distanceOk (.nan) = false ∧
       distanceOk (.fin 0) = false ∧
       distanceOk (.fin (-5)) = false) ∧
      (∀ (st : List Session) (h : AuthHeaders) (e : Option String) (g : String)
        (b : Body),
        requireEditAuth h e = true →
        b.distance = some v → v ≠ .vNull → v ≠ .vStr "" →
        ¬(b.date = none ∨ b.date = some "") →
        distanceOk (toNumber v) = false →
        postSessions st h e g b = (.badRequest "distance invalide", st) ∧
        (Resp.badRequest "distance invalide").status = 400) := by
  intro v
  refine ⟨?_, by decide, ?_⟩
  · cases hn : toNumber v with
    | fin q =>
      simp [distanceOk, jsNumIsFinite, jsLeZero, not_le]
    | posInf => simp [distanceOk, jsNumIsFinite]
    | negInf => simp [distanceOk, jsNumIsFinite]
    | nan => simp [distanceOk, jsNumIsFinite]
  · intro st h e g b hauth hb hv1 hv2 hdate hd
    refine ⟨?_, rfl⟩
    simp [postSessions, hauth, hb, hv1, hv2, hdate, hd]

/-- C3 witness. -/
theorem distance_validation_spec_witness :
    postSessions [] ⟨some "k", none⟩ (some "k") "g"
      ⟨none, some "2024-01-01", some (.vStr "abc"), none⟩ =
      (.badRequest "distance invalide", []) :=
  ((distance_validation_spec (.vStr "abc")).2.2 [] ⟨some "k", none⟩ (some "k") "g"
    ⟨none, some "2024-01-01", some (.vStr "abc"), none⟩ (by decide) rfl
    (by decide) (by decide) (by decide) (by decide)).1

/-- C4: an authorized `PUT /sessions/:id` whose body carries an invalid
distance answers 400 and leaves every stored row unchanged, for every id
(existing or not) and every table state: the distance is validated before
any row lookup or update. -/
theorem put_invalid_distance_rejected_before_lookup :
    ∀ (st : List Session) (h : AuthHeaders) (e : Option String) (i : String)
      (b : Body) (v : JsVal),
      requireEditAuth h e = true →
      b.distance = some v →
      distanceOk (toNumber v) = false →
      putSessions st h e i b = (.badRequest "distance invalide", st) ∧
      (putSessions st h e i b).1.status = 400 ∧
      (putSessions st h e i b).2 = st := by
  intro st h e i b v hauth hb hd
  have hmain : putSessions st h e i b = (.badRequest "distance invalide", st) := by
    simp [putSessions, hauth, hb, hd]
  exact ⟨hmain, by rw [hmain]; rfl, by rw [hmain]⟩

/-- C4 witness: distance `-5` on a missing id over the empty table. -/
theorem put_invalid_distance_rejected_before_lookup_witness :
    putSessions [] ⟨some "k", none⟩ (some "k") "nonexistent"
      ⟨none, none, some (.vNum (.fin (-5))), none⟩ =
      (.badRequest "distance invalide", []) :=
  (put_invalid_distance_rejected_before_lookup [] ⟨some "k", none⟩ (some "k")
    "nonexistent" ⟨none, none, some (.vNum (.fin (-5))), none⟩ (.vNum (.fin (-5)))
    (by decide) rfl (by decide)).1

/-- C10: `PUT /sessions/:id` treats an empty-string date as not supplied:
a body whose only field is `date:""` is rejected 400 ("no data to
update") before any query, and a body with `date:""` alongside a valid
distance updates the row without touching the date column (every stored
date is unchanged), while the response echoes the submitted empty date. -/
theorem put_empty_date_not_supplied :
    ∀ (st : List Session) (h : AuthHeaders) (e : Option String) (i : String),
      requireEditAuth h e = true →
      (putSessions st h e i ⟨none, some "", none, none⟩ =
        (.badRequest "aucune donnée à mettre à jour", st)) ∧
      (∀ q : ℚ, 0 < q → (st.filter (fun s => s.id == i)).length ≠ 0 →
        putSessions st h e i ⟨none, some "", some (.vNum (.fin q)), none⟩ =
          (.updated i (some "") (some (.vNum (.fin q))) none,
            st.map (fun s => if s.id == i then { s with distance := q } else s)) ∧
        (putSessions st h e i ⟨none, some "", some (.vNum (.fin q)), none⟩).2.map
            Session.date = st.map Session.date) := by
  intro st h e i hauth
  constructor
  · simp [putSessions, hauth]
  · intro q hq hmatch
    have hle : jsLeZero (.fin q) = false := by
      simpa [jsLeZero, not_le] using hq
    have hmain : putSessions st h e i ⟨none, some "", some (.vNum (.fin q)), none⟩ =
        (.updated i (some "") (some (.vNum (.fin q))) none,
          st.map (fun s => if s.id == i then { s with distance := q } else s)) := by
      simp [putSessions, hauth, distanceOk, jsNumIsFinite, hle, toNumber,
        JsNum.toQ, hmatch]
    refine ⟨hmain, ?_⟩
    rw [hmain]
    simp [List.map_map, Function.comp, apply_ite]

/-- C10 witness. -/
theorem put_empty_date_not_supplied_witness :
    putSessions [⟨"a", "2024-01-01", 1, "swim"⟩] ⟨some "k", none⟩ (some "k") "a"
        ⟨none, some "", none, none⟩ =
      (.badRequest "aucune donnée à mettre à jour", [⟨"a", "2024-01-01", 1, "swim"⟩]) ∧
    putSessions [⟨"a", "2024-01-01", 1, "swim"⟩] ⟨some "k", none⟩ (some "k") "a"
        ⟨none, some "", some (.vNum (.fin 5)), none⟩ =
      (.updated "a" (some "") (some (.vNum (.fin 5))) none,
        [⟨"a", "2024-01-01", 5, "swim"⟩]) :=
  ⟨(put_empty_date_not_supplied [⟨"a", "2024-01-01", 1, "swim"⟩] ⟨some "k", none⟩
      (some "k") "a" (by decide)).1,
   by
    have h := ((put_empty_date_not_supplied [⟨"a", "2024-01-01", 1, "swim"⟩]
      ⟨some "k", none⟩ (some "k") "a" (by decide)).2 5 (by decide) (by decide)).1
    simpa using h⟩

/-- C7: inside the API router, a GET whose path is not the health check is
answered 204 with an empty body (the route handler is never reached) iff
`Sec-Fetch-Mode` is `navigate`, or `Sec-Fetch-Dest` is `document`, or the
`Accept` header contains `text/html` and not `application/json`
(case-insensitively, via lowercasing); non-GET requests and the health
check are never blocked. -/
theorem blockBrowserNav_spec :
    ∀ (m p : String) (nav : NavHeaders),
      (blockBrowserNav m p nav = true ↔
        (m = "GET" ∧ p ≠ "/health" ∧
          (jsToLower (nav.secFetchMode.getD "") = "navigate" ∨
           jsToLower (nav.secFetchDest.getD "") = "document" ∨
           (strContains (jsToLower (nav.accept.getD "")) "text/html" = true ∧
            strContains (jsToLower (nav.accept.getD "")) "application/json" = false)))) ∧
      (m ≠ "GET" → blockBrowserNav m p nav = false) ∧
      blockBrowserNav m "/health" nav = false ∧
      (∀ (e : Option String) (st : List Session) (req : Request) (g : String),
        blockBrowserNav req.method req.path req.nav = true →
        routerHandle e st req g = some (.noContent, st) ∧
        Resp.noContent.status = 204) := by
  intro m p nav
  refine ⟨?_, ?_, ?_, ?_⟩
  · simp only [blockBrowserNav, isDocumentNav, Bool.and_eq_true, Bool.or_eq_true,
      beq_iff_eq, bne_iff_ne, ne_eq, Bool.not_eq_true']
    tauto
  · intro hm
    simp [blockBrowserNav, hm]
  · simp [blockBrowserNav]
  · intro e st req g hb
    exact ⟨by simp [routerHandle, hb], rfl⟩

/-- C7 witness: a browser-navigation GET of `/sessions` is short-circuited
with 204 and the table is untouched. -/
theorem blockBrowserNav_spec_witness :
    routerHandle none [] ⟨"GET", "/sessions", ⟨none, none⟩,
        ⟨none, some "navigate", none⟩, none, ⟨none, none, none, none⟩⟩ "g" =
      some (.noContent, []) :=
  (((blockBrowserNav_spec "GET" "/sessions"
      ⟨none, some "navigate", none⟩).2.2.2 none []
      ⟨"GET", "/sessions", ⟨none, none⟩, ⟨none, some "navigate", none⟩, none,
        ⟨none, none, none, none⟩⟩ "g" (by decide)).1)

/-- C2 round-trip: from any table state, an authorized
`POST /sessions {date:"2024-01-01", distance:"1000", type:"Swim "}` (with
a fresh generated id) answers 201 with the distance converted to the
number 1000 and the type normalized to `"swim"`; a subsequent
`GET /sessions?type=swim` includes the record; an authorized DELETE of
that id answers 204 with an empty body; and a later `GET /sessions` no
longer includes it. -/
theorem session_roundtrip :
    ∀ (st : List Session) (h : AuthHeaders) (e : Option String) (g : String),
      requireEditAuth h e = true →
      (∀ s ∈ st, s.id ≠ g) →
      postSessions st h e g ⟨none, some "2024-01-01", some (.vStr "1000"), some "Swim "⟩ =
        (.created ⟨g, "2024-01-01", 1000, "swim"⟩,
          st ++ [⟨g, "2024-01-01", 1000, "swim"⟩]) ∧
      (Resp.created ⟨g, "2024-01-01", 1000, "swim"⟩).status = 201 ∧
      (∃ rows, getSessions (st ++ [⟨g, "2024-01-01", 1000, "swim"⟩]) (some "swim") =
          .sessionsList rows ∧ (⟨g, "2024-01-01", 1000, "swim"⟩ : Session) ∈ rows) ∧
      deleteSession (st ++ [⟨g, "2024-01-01", 1000, "swim"⟩]) h e g = (.noContent, st) ∧
      Resp.noContent.status = 204 ∧
      (∃ rows2, getSessions st none = .sessionsList rows2 ∧
        (⟨g, "2024-01-01", 1000, "swim"⟩ : Session) ∉ rows2) := by
  intro st h e g hauth hfresh
  have hnum : toNumber (.vStr "1000") = .fin 1000 := by decide
  have hok : distanceOk (.fin 1000) = true := by decide
  have hnorm : normalizeType (some "Swim ") = "swim" := by decide
  have hnorm2 : normalizeType (some "swim") = "swim" := by decide
  have hvalid : isValidType "swim" = true := by decide
  refine ⟨?_, rfl, ?_, ?_, rfl, ?_⟩
  · simp [postSessions, hauth, hnum, hok, hnorm, hvalid, JsNum.toQ]
  · refine ⟨sortByDate ((st ++ [(⟨g, "2024-01-01", 1000, "swim"⟩ : Session)]).filter
      (fun s => s.type == "swim")), ?_, ?_⟩
    · simp [getSessions, hnorm2, hvalid]
    · rw [mem_sortByDate]
      exact List.mem_filter.mpr ⟨List.mem_append_right _ (by simp), by simp⟩
  · have hfilter : st.filter (fun s => s.id == g) = [] :=
      List.filter_eq_nil_iff.mpr (fun s hs => by simp [hfresh s hs])
    have hkeep : st.filter (fun s => !(s.id == g)) = st :=
      List.filter_eq_self.mpr (fun s hs => by simp [hfresh s hs])
    simp [deleteSession, hauth, List.filter_append, hfilter, hkeep]
  · refine ⟨sortByDate st, by simp [getSessions], ?_⟩
    rw [mem_sortByDate]
    intro hmem
    exact hfresh _ hmem rfl

/-- C2 witness: the round-trip over the empty table with a concrete key. -/
theorem session_roundtrip_witness :
    postSessions [] ⟨some "k", none⟩ (some "k") "id1"
        ⟨none, some "2024-01-01", some (.vStr "1000"), some "Swim "⟩ =
      (.created ⟨"id1", "2024-01-01", 1000, "swim"⟩,
        [⟨"id1", "2024-01-01", 1000, "swim"⟩]) ∧
    deleteSession [⟨"id1", "2024-01-01", 1000, "swim"⟩] ⟨some "k", none⟩
        (some "k") "id1" = (.noContent, []) := by
  have h := session_roundtrip [] ⟨some "k", none⟩ (some "k") "id1" (by decide)
    (by intro s hs; cases hs)
  exact ⟨h.1, h.2.2.2.1⟩

/-! ### Dual mounting (`app.use("/", api)` and `app.use("/api", api)`) -/

theorem pathSegments_api (r : String) :
    pathSegments ("/api" ++ ("/" ++ r)) = "api" :: pathSegments ("/" ++ r) := rfl

theorem stripApi_api (r : String) :
    stripApi ("/api" ++ ("/" ++ r)) = some ("/" ++ r) := rfl

theorem api_ne_health (r : String) : ("/api" ++ ("/" ++ r)) ≠ "/health" := by
  intro h
  have h2 := congrArg String.data h
  have h3 : ("/api" ++ ("/" ++ r)).data = '/' :: 'a' :: 'p' :: 'i' :: '/' :: r.data := rfl
  rw [h3] at h2
  simp at h2

theorem api_ne_root (r : String) : ("/api" ++ ("/" ++ r)) ≠ "/" := by
  intro h
  have h2 := congrArg String.data h
  have h3 : ("/api" ++ ("/" ++ r)).data = '/' :: 'a' :: 'p' :: 'i' :: '/' :: r.data := rfl
  rw [h3] at h2
  simp at h2

/-- No route of the `api` router matches a path whose first segment is
`api`: at the root mount, `/api/...` always falls through the routes. -/
theorem dispatch_api_none (e : Option String) (st : List Session) (m : String)
    (a : AuthHeaders) (nav : NavHeaders) (q : Option String) (b : Body)
    (r : String) (g : String) :
    routeDispatch e st ⟨m, "/api" ++ ("/" ++ r), a, nav, q, b⟩ g = none := by
  have hsegs : pathSegments ("/api" ++ ("/" ++ r)) =
      "api" :: pathSegments ("/" ++ r) := rfl
  simp [routeDispatch, hsegs, seg1]

/-- C8 counterexample: a navigation-style GET of `/health` reaches the
health handler, but the same request at `/api/health` is answered 204 by
the navigation blocker (at the root mount its path `/api/health` is not
exempt), so the two mounts are not identical for every path and headers. -/
theorem mounts_equiv_counterexample :
    handleApp none []
        ⟨"GET", "/health", ⟨none, none⟩, ⟨none, some "navigate", none⟩, none,
          ⟨none, none, none, none⟩⟩ "g" ≠
      handleApp none []
        ⟨"GET", "/api/health", ⟨none, none⟩, ⟨none, some "navigate", none⟩, none,
          ⟨none, none, none, none⟩⟩ "g" := by decide

/-- C8 amended: a route served at the server root and the same route under
the `/api` prefix produce identical responses and state effects for every
method, headers and body, provided the path suffix is not itself in the
`/api` mount (`stripApi` misses), is not the bare root path, and the
request is not a browser-navigation GET of `/health` (where the blocker's
health-check exemption applies only at the root mount). -/
theorem mounts_equiv_amended :
    ∀ (e : Option String) (st : List Session) (g m : String) (a : AuthHeaders)
      (nav : NavHeaders) (q : Option String) (b : Body) (r : String),
      stripApi ("/" ++ r) = none →
      "/" ++ r ≠ "/" →
      ¬(m = "GET" ∧ "/" ++ r = "/health" ∧ isDocumentNav nav = true) →
      handleApp e st ⟨m, "/api" ++ ("/" ++ r), a, nav, q, b⟩ g =
        handleApp e st ⟨m, "/" ++ r, a, nav, q, b⟩ g := by
  intro e st g m a nav q b r hstrip hroot hnav
  by_cases hgd : (m == "GET" && isDocumentNav nav) = true
  · have hmg : (m == "GET") = true := (Bool.and_eq_true _ _ |>.mp hgd).1
    have hdoc : isDocumentNav nav = true := (Bool.and_eq_true _ _ |>.mp hgd).2
    have hphealth : ("/" ++ r) ≠ "/health" := by
      intro hph
      exact hnav ⟨by simpa using hmg, hph, hdoc⟩
    have hb1 : blockBrowserNav m ("/" ++ r) nav = true := by
      simp [blockBrowserNav, hmg, hdoc, hphealth]
    have hb2 : blockBrowserNav m ("/api" ++ ("/" ++ r)) nav = true := by
      simp [blockBrowserNav, hmg, hdoc, api_ne_health r]
    simp [handleApp, routerHandle, hb1, hb2]
  · have hgd' : (m == "GET") = false ∨ isDocumentNav nav = false := by
      cases hmg : (m == "GET") with
      | false => exact Or.inl rfl
      | true =>
        cases hdoc : isDocumentNav nav with
        | false => exact Or.inr rfl
        | true => exact absurd (by simp [hmg, hdoc]) hgd
    have hbf : ∀ path, blockBrowserNav m path nav = false := by
      intro path
      rcases hgd' with h | h <;> simp [blockBrowserNav, h]
    have hdisp := dispatch_api_none e st m a nav q b r g
    simp only [handleApp, routerHandle, hbf, Bool.false_eq_true, if_false, hdisp,
      stripApi_api, hstrip]
    cases hd : routeDispatch e st ⟨m, "/" ++ r, a, nav, q, b⟩ g with
    | some res => simp [hd]
    | none => simp [hd, appFallback, hroot, api_ne_root r]

/-- C8 witness: `GET /sessions` and `GET /api/sessions` agree. -/
theorem mounts_equiv_amended_witness :
    handleApp none [] ⟨"GET", "/api" ++ ("/" ++ "sessions"), ⟨none, none⟩,
        ⟨none, none, none⟩, none, ⟨none, none, none, none⟩⟩ "g" =
      handleApp none [] ⟨"GET", "/" ++ "sessions", ⟨none, none⟩,
        ⟨none, none, none⟩, none, ⟨none, none, none, none⟩⟩ "g" :=
  mounts_equiv_amended none [] "g" "GET" ⟨none, none⟩ ⟨none, none, none⟩ none
    ⟨none, none, none, none⟩ "sessions" (by decide) (by decide) (by decide)
